import Mathlib

/-!
Verification of the resumedb frontend's session-to-backend identity
synchronization logic, shallowly embedded from the TypeScript source:

* `src/app/api/sync-user/route.ts`  (the `GET` sync route)
* `src/app/api/auth-token/route.ts` (the `GET` credential route, `src/unnamed/part_004`)
* `src/components/UserSync.tsx`     (the client-side sync effect)
* `middleware.ts`                   (`src/unnamed/part_003`)
* `src/app/dashboard/page.tsx`      (the protected page)

JavaScript optional fields are modelled as `Option String`, with JS
truthiness (`undefined`, `null` and the empty string are falsy) made
explicit.  The resource server is a parameter `backend : String → BackendReply`
mapping the presented bearer token to its reply; `Date.now()` is a single
`now : Nat` parameter (seconds).
-/

/-! ### JavaScript truthiness helpers -/

/-- Truthiness of a JS string-or-absent value: absent and the empty string
are falsy. -/
def truthy : Option String → Bool
  | none => false
  | some s => !(s == "")

/-- Normalise an optional string so that `some` means truthy, mirroring the
JS guards `if (x)`. -/
def truthyOpt (o : Option String) : Option String :=
  if truthy o then o else none

/-- The JS idiom `x || dflt` on a string-or-absent value with a string
default. -/
def jsOrStr (o : Option String) (dflt : String) : String :=
  match truthyOpt o with
  | some s => s
  | none => dflt

/-- The JS idiom `a || b || c || ...`: first truthy value in the chain,
`none` when every link is falsy. -/
def firstTruthy : List (Option String) → Option String
  | [] => none
  | o :: rest =>
    match truthyOpt o with
    | some s => some s
    | none => firstTruthy rest

/-! ### UTF-8 encoding (`Buffer.from(string)`) -/

/-- UTF-8 bytes of a single character (standard 1-4 byte encoding). -/
def utf8Char (c : Char) : List Nat :=
  if c.toNat < 128 then [c.toNat]
  else if c.toNat < 2048 then [192 + c.toNat / 64, 128 + c.toNat % 64]
  else if c.toNat < 65536 then
    [224 + c.toNat / 4096, 128 + (c.toNat / 64) % 64, 128 + c.toNat % 64]
  else
    [240 + c.toNat / 262144, 128 + (c.toNat / 4096) % 64,
      128 + (c.toNat / 64) % 64, 128 + c.toNat % 64]

/-- UTF-8 bytes of a character sequence. -/
def utf8Bytes (s : List Char) : List Nat :=
  (s.map utf8Char).flatten

theorem char_toNat_lt (c : Char) : c.toNat < 1114112 := by
  have h := c.valid
  unfold UInt32.isValidChar Nat.isValidChar at h
  show c.val.toNat < 1114112
  rcases h with h | h
  · omega
  · omega

theorem utf8Char_lt (c : Char) : ∀ b ∈ utf8Char c, b < 256 := by
  intro b hb
  have hmax := char_toNat_lt c
  unfold utf8Char at hb
  split at hb
  · simp at hb; omega
  · split at hb
    · simp at hb
      rcases hb with hb | hb <;> omega
    · split at hb
      · simp at hb
        rcases hb with hb | hb | hb <;> omega
      · simp at hb
        rcases hb with hb | hb | hb | hb <;> omega

theorem utf8Bytes_lt (s : List Char) : ∀ b ∈ utf8Bytes s, b < 256 := by
  intro b hb
  simp only [utf8Bytes, List.mem_flatten, List.mem_map] at hb
  obtain ⟨l, ⟨c, _, rfl⟩, hbl⟩ := hb
  exact utf8Char_lt c b hbl

/-! ### base64url (Node `Buffer.toString('base64url')`: no padding) -/

/-- The base64url alphabet character for a 6-bit value. -/
def b64Char (v : Nat) : Char :=
  if v < 26 then Char.ofNat (65 + v)
  else if v < 52 then Char.ofNat (97 + (v - 26))
  else if v < 62 then Char.ofNat (48 + (v - 52))
  else if v = 62 then '-'
  else '_'

/-- Inverse of `b64Char` on the alphabet. -/
def b64Val (c : Char) : Nat :=
  if 65 ≤ c.toNat ∧ c.toNat ≤ 90 then c.toNat - 65
  else if 97 ≤ c.toNat ∧ c.toNat ≤ 122 then c.toNat - 97 + 26
  else if 48 ≤ c.toNat ∧ c.toNat ≤ 57 then c.toNat - 48 + 52
  else if c = '-' then 62
  else 63

/-- Unpadded base64url encoding of a byte sequence. -/
def b64urlEncode : List Nat → List Char
  | [] => []
  | [a] => [b64Char (a / 4), b64Char ((a % 4) * 16)]
  | [a, b] => [b64Char (a / 4), b64Char ((a % 4) * 16 + b / 16), b64Char ((b % 16) * 4)]
  | a :: b :: c :: rest =>
    b64Char (a / 4) :: b64Char ((a % 4) * 16 + b / 16) ::
      b64Char ((b % 16) * 4 + c / 64) :: b64Char (c % 64) :: b64urlEncode rest

/-- Unpadded base64url decoding of a character sequence. -/
def b64urlDecode : List Char → List Nat
  | [] => []
  | [_] => []
  | [c1, c2] => [b64Val c1 * 4 + b64Val c2 / 16]
  | [c1, c2, c3] =>
    [b64Val c1 * 4 + b64Val c2 / 16, (b64Val c2 % 16) * 16 + b64Val c3 / 4]
  | c1 :: c2 :: c3 :: c4 :: rest =>
    (b64Val c1 * 4 + b64Val c2 / 16) :: ((b64Val c2 % 16) * 16 + b64Val c3 / 4) ::
      ((b64Val c3 % 4) * 64 + b64Val c4) :: b64urlDecode rest

theorem b64Val_b64Char : ∀ v, v < 64 → b64Val (b64Char v) = v := by decide

theorem b64Char_ne_dot : ∀ v, v < 64 → b64Char v ≠ '.' := by decide

theorem b64Char_ne_eq : ∀ v, v < 64 → b64Char v ≠ '=' := by decide

theorem b64urlEncode_chars (bs : List Nat) (h : ∀ b ∈ bs, b < 256) :
    ∀ c ∈ b64urlEncode bs, ∃ v, v < 64 ∧ c = b64Char v := by
  induction bs using b64urlEncode.induct with
  | case1 =>
    intro c hc
    simp [b64urlEncode] at hc
  | case2 a =>
    intro c hc
    have ha : a < 256 := h a (by simp)
    simp only [b64urlEncode, List.mem_cons, List.not_mem_nil, or_false] at hc
    rcases hc with rfl | rfl
    · exact ⟨a / 4, by omega, rfl⟩
    · exact ⟨(a % 4) * 16, by omega, rfl⟩
  | case3 a b =>
    intro c hc
    have ha : a < 256 := h a (by simp)
    have hb : b < 256 := h b (by simp)
    simp only [b64urlEncode, List.mem_cons, List.not_mem_nil, or_false] at hc
    rcases hc with rfl | rfl | rfl
    · exact ⟨a / 4, by omega, rfl⟩
    · exact ⟨(a % 4) * 16 + b / 16, by omega, rfl⟩
    · exact ⟨(b % 16) * 4, by omega, rfl⟩
  | case4 a b cc rest ih =>
    intro c hc
    have ha : a < 256 := h a (by simp)
    have hb : b < 256 := h b (by simp)
    have hcc : cc < 256 := h cc (by simp)
    simp only [b64urlEncode, List.mem_cons] at hc
    rcases hc with rfl | rfl | rfl | rfl | hc
    · exact ⟨a / 4, by omega, rfl⟩
    · exact ⟨(a % 4) * 16 + b / 16, by omega, rfl⟩
    · exact ⟨(b % 16) * 4 + cc / 64, by omega, rfl⟩
    · exact ⟨cc % 64, by omega, rfl⟩
    · exact ih (fun x hx => h x (by simp [hx])) c hc

theorem b64urlEncode_no_dot (bs : List Nat) (h : ∀ b ∈ bs, b < 256) :
    '.' ∉ b64urlEncode bs := by
  intro hmem
  obtain ⟨v, hv, he⟩ := b64urlEncode_chars bs h _ hmem
  exact b64Char_ne_dot v hv he.symm

theorem b64urlEncode_no_eq (bs : List Nat) (h : ∀ b ∈ bs, b < 256) :
    ∀ c ∈ b64urlEncode bs, c ≠ '=' := by
  intro c hmem
  obtain ⟨v, hv, he⟩ := b64urlEncode_chars bs h c hmem
  subst he
  exact b64Char_ne_eq v hv

theorem b64url_roundtrip (bs : List Nat) (h : ∀ b ∈ bs, b < 256) :
    b64urlDecode (b64urlEncode bs) = bs := by
  induction bs using b64urlEncode.induct with
  | case1 => rfl
  | case2 a =>
    have ha : a < 256 := h a (by simp)
    simp only [b64urlEncode, b64urlDecode]
    rw [b64Val_b64Char (a / 4) (by omega), b64Val_b64Char ((a % 4) * 16) (by omega)]
    congr 1
    omega
  | case3 a b =>
    have ha : a < 256 := h a (by simp)
    have hb : b < 256 := h b (by simp)
    simp only [b64urlEncode, b64urlDecode]
    rw [b64Val_b64Char (a / 4) (by omega), b64Val_b64Char ((a % 4) * 16 + b / 16) (by omega),
      b64Val_b64Char ((b % 16) * 4) (by omega)]
    congr 1
    · omega
    · congr 1
      omega
  | case4 a b c rest ih =>
    have ha : a < 256 := h a (by simp)
    have hb : b < 256 := h b (by simp)
    have hc : c < 256 := h c (by simp)
    have ihr := ih (fun x hx => h x (by simp [hx]))
    match hrest : b64urlEncode rest with
    | [] =>
      simp only [b64urlEncode, hrest, b64urlDecode]
      rw [b64Val_b64Char (a / 4) (by omega), b64Val_b64Char ((a % 4) * 16 + b / 16) (by omega),
        b64Val_b64Char ((b % 16) * 4 + c / 64) (by omega), b64Val_b64Char (c % 64) (by omega)]
      rw [hrest] at ihr
      simp only [b64urlDecode] at ihr
      rw [← ihr]
      congr 1
      · omega
      · congr 1
        · omega
        · congr 1
          omega
    | e1 :: erest =>
      simp only [b64urlEncode, hrest, b64urlDecode]
      rw [b64Val_b64Char (a / 4) (by omega), b64Val_b64Char ((a % 4) * 16 + b / 16) (by omega),
        b64Val_b64Char ((b % 16) * 4 + c / 64) (by omega), b64Val_b64Char (c % 64) (by omega)]
      rw [hrest] at ihr
      rw [ihr]
      congr 1
      · omega
      · congr 1
        · omega
        · congr 1
          omega

/-! ### Splitting on the dot character (JS `token.split('.')`) -/

/-- Mirror of JavaScript `String.prototype.split('.')` at character level. -/
def splitOnDot : List Char → List (List Char)
  | [] => [[]]
  | c :: rest =>
    if c = '.' then [] :: splitOnDot rest
    else
      match splitOnDot rest with
      | [] => [[c]]
      | seg :: segs => (c :: seg) :: segs

theorem splitOnDot_append (xs ys : List Char) (h : '.' ∉ xs) :
    splitOnDot (xs ++ '.' :: ys) = xs :: splitOnDot ys := by
  induction xs with
  | nil => simp [splitOnDot]
  | cons c rest ih =>
    have hc : ¬(c = '.') := fun hc => h (by simp [hc])
    have hr : '.' ∉ rest := fun hm => h (by simp [hm])
    simp only [List.cons_append, splitOnDot, hc, if_false, List.append_eq, ih hr]

/-! ### JSON rendering (`JSON.stringify` on flat claim objects) -/

/-- Lowercase hexadecimal digit. -/
def hexDigit (n : Nat) : Char :=
  if n < 10 then Char.ofNat (48 + n) else Char.ofNat (87 + n)

/-- Escaping of a character inside a JSON string literal, as performed by
`JSON.stringify`. -/
def escapeJsonChar (c : Char) : List Char :=
  if c = '"' then ['\\', '"']
  else if c = '\\' then ['\\', '\\']
  else if c = Char.ofNat 8 then ['\\', 'b']
  else if c = Char.ofNat 9 then ['\\', 't']
  else if c = Char.ofNat 10 then ['\\', 'n']
  else if c = Char.ofNat 12 then ['\\', 'f']
  else if c = Char.ofNat 13 then ['\\', 'r']
  else if c.toNat < 32 then
    ['\\', 'u', '0', '0', hexDigit (c.toNat / 16), hexDigit (c.toNat % 16)]
  else [c]

/-- Rendering of a JSON string literal. -/
def renderStr (s : String) : List Char :=
  '"' :: (s.toList.map escapeJsonChar).flatten ++ ['"']

/-- A claim value in the synthesized token payload: string, number or null. -/
inductive ClaimVal where
  | cstr (s : String)
  | cnum (n : Nat)
  | cnull
deriving DecidableEq

/-- Rendering of a claim value. -/
def renderClaimVal : ClaimVal → List Char
  | .cstr s => renderStr s
  | .cnum n => (Nat.repr n).toList
  | .cnull => ['n', 'u', 'l', 'l']

/-- Rendering of the comma-separated field list of a JSON object. -/
def renderFields : List (String × ClaimVal) → List Char
  | [] => []
  | [(k, v)] => renderStr k ++ ':' :: renderClaimVal v
  | (k, v) :: rest => renderStr k ++ ':' :: renderClaimVal v ++ ',' :: renderFields rest

/-- Rendering of a flat JSON object, fields in insertion order, no spaces
(exactly `JSON.stringify`). -/
def renderObj (fs : List (String × ClaimVal)) : List Char :=
  Char.ofNat 123 :: renderFields fs ++ [Char.ofNat 125]

/-! ### The session data model

`src/app/api/sync-user/route.ts` probes `session.accessToken`,
`session.access_token`, `session.token?.access_token`, `session.idToken`,
`session.id_token` and `session.user.{sub,email,name,nickname,picture}`;
each is an optional string.  `session.token?.access_token` is flattened
into the single optional field `tokenAccessToken`. -/

structure SessionUser where
  sub : Option String
  email : Option String
  name : Option String
  nickname : Option String
  picture : Option String
deriving DecidableEq

structure Session where
  user : Option SessionUser
  accessToken : Option String
  access_token : Option String
  tokenAccessToken : Option String
  idToken : Option String
  id_token : Option String
deriving DecidableEq

/-- Lines 32-34 of `sync-user/route.ts` (and lines 33-35 of the auth-token
route): `sessionAny?.accessToken || sessionAny?.access_token ||
sessionAny?.token?.access_token`. -/
def sessionAccessToken (s : Session) : Option String :=
  firstTruthy [s.accessToken, s.access_token, s.tokenAccessToken]

/-- Line 52 of `sync-user/route.ts`: `sessionAny?.idToken || sessionAny?.id_token`. -/
def sessionIdToken (s : Session) : Option String :=
  firstTruthy [s.idToken, s.id_token]

/-- The environment variables the two routes read. -/
structure Env where
  NEXT_PUBLIC_BACKEND_URL : Option String
  BACKEND_URL : Option String
  AUTH0_AUDIENCE : Option String
  NEXT_PUBLIC_AUTH0_AUDIENCE : Option String

/-- `process.env.NEXT_PUBLIC_BACKEND_URL || process.env.BACKEND_URL ||
"http://localhost:8000"`. -/
def backendBaseUrl (env : Env) : String :=
  jsOrStr (firstTruthy [env.NEXT_PUBLIC_BACKEND_URL, env.BACKEND_URL]) ("http://localhost:8000")

/-- The hint URL used on transport errors (note: unlike `backendBaseUrl`,
`BACKEND_URL` is not consulted): `process.env.NEXT_PUBLIC_BACKEND_URL ||
"http://localhost:8000"`. -/
def hintBaseUrl (env : Env) : String :=
  jsOrStr env.NEXT_PUBLIC_BACKEND_URL ("http://localhost:8000")

/-! ### The synthesized credential (lines 111-123 of `sync-user/route.ts`) -/

/-- The fixed token header object `JSON.stringify({ alg: "none", typ: "JWT" })`. -/
def headerJson : List Char :=
  renderObj [(("alg"), ClaimVal.cstr ("none")), (("typ"), ClaimVal.cstr ("JWT"))]

/-- The payload claims object (lines 112-119): `sub`, `email`
(`session.user.email || ""`), `name` (`session.user.name ||
session.user.nickname || null`), `picture` (`session.user.picture || null`),
`iat` (current time in seconds) and `exp = iat + 3600`.  The source calls
`Date.now()` once per field; the embedding uses a single clock value `now`. -/
def payloadClaims (sub : String) (u : SessionUser) (now : Nat) : List (String × ClaimVal) :=
  [(("sub"), ClaimVal.cstr sub),
   (("email"), ClaimVal.cstr (jsOrStr u.email (""))),
   (("name"), match firstTruthy [u.name, u.nickname] with
              | some s => ClaimVal.cstr s
              | none => ClaimVal.cnull),
   (("picture"), match truthyOpt u.picture with
                 | some s => ClaimVal.cstr s
                 | none => ClaimVal.cnull),
   (("iat"), ClaimVal.cnum now),
   (("exp"), ClaimVal.cnum (now + 3600))]

/-- `JSON.stringify` of the payload claims. -/
def payloadJson (sub : String) (u : SessionUser) (now : Nat) : List Char :=
  renderObj (payloadClaims sub u now)

/-- A base64url segment: `Buffer.from(json).toString('base64url').replace(/=/g, '')`. -/
def b64seg (s : List Char) : List Char :=
  (b64urlEncode (utf8Bytes s)).filter (fun c => c ≠ '=')

/-- Line 123: `` `${header}.${payload}.` `` — the three-segment minimal token. -/
def minimalTokenChars (sub : String) (u : SessionUser) (now : Nat) : List Char :=
  b64seg headerJson ++ ('.' :: (b64seg (payloadJson sub u now) ++ ['.']))

/-! ### The resource server and the sync route -/

/-- A reply of the resource server's identity endpoint to one request:
either an HTTP response (with the parsed `detail` field of its JSON body,
`none` when absent or unparsable, and the raw success body), or a
network/transport error. -/
inductive BackendReply where
  | reply (status : Nat) (detail : Option String) (raw : String)
  | netError (msg : String)
deriving DecidableEq

/-- `response.ok`: status in the 2xx range. -/
def responseOk (status : Nat) : Bool :=
  decide (200 ≤ status) && decide (status < 300)

/-- `errorData.detail || 'HTTP ' + response.status`. -/
def errorFrom (detail : Option String) (status : Nat) : String :=
  jsOrStr detail (("HTTP ") ++ toString status)

/-- The `user` field of a sync response body: backend user-record JSON on
success, the raw session user in the tokens-unavailable deferred reply. -/
inductive UserField where
  | backendData (raw : String)
  | sessionData (u : SessionUser)
deriving DecidableEq

/-- The JSON body shapes produced by `GET /api/sync-user`; absent fields are
`none`.  `debug` records presence of the debug object of lines 168-172. -/
structure SyncBody where
  synced : Option Bool := none
  user : Option UserField := none
  method : Option String := none
  error : Option String := none
  message : Option String := none
  hint : Option String := none
  detail : Option String := none
  backendUrl : Option String := none
  debug : Bool := false
deriving DecidableEq

structure SyncResponse where
  status : Nat
  body : SyncBody
deriving DecidableEq

/-- Result of one invocation of the route: the HTTP response together with
the bearer tokens presented to the resource server, in order. -/
structure SyncResult where
  response : SyncResponse
  calls : List String
deriving DecidableEq

/-- Shallow embedding of `GET` in `src/app/api/sync-user/route.ts`.
`backend` maps the presented bearer token to the resource server's reply;
`now` is the clock in seconds.  A transport error in the access-token tier
(lines 204-211) propagates to the outer catch (lines 232-242); the
identity-token and session-data tiers have their own catches. -/
def GETsyncUser (env : Env) (backend : String → BackendReply)
    (session : Option Session) (now : Nat) : SyncResult :=
  match session with
  | none => ⟨⟨401, { error := some ("Not authenticated") }⟩, []⟩
  | some s =>
    match s.user with
    | none => ⟨⟨401, { error := some ("Not authenticated") }⟩, []⟩
    | some u =>
      match sessionAccessToken s with
      | some tk =>
        -- lines 196-231 (outer catch: lines 232-242)
        (match backend tk with
         | .netError msg =>
           ⟨⟨500, { synced := some false, error := some ("Failed to sync user"),
                    detail := some msg }⟩, [tk]⟩
         | .reply st detail raw =>
           if responseOk st then
             ⟨⟨200, { synced := some true, user := some (.backendData raw) }⟩, [tk]⟩
           else
             ⟨⟨st, { synced := some false, error := some (errorFrom detail st),
                     backendUrl := some (backendBaseUrl env ++ ("/api/v1/auth/me")) }⟩, [tk]⟩)
      | none =>
        match sessionIdToken s with
        | some tk =>
          -- lines 54-99
          (match backend tk with
           | .netError msg =>
             ⟨⟨500, { synced := some false, error := some ("Failed to connect to backend"),
                      detail := some msg,
                      hint := some (("Make sure the backend is running on ") ++ hintBaseUrl env) }⟩,
              [tk]⟩
           | .reply st detail raw =>
             if responseOk st then
               ⟨⟨200, { synced := some true, user := some (.backendData raw),
                        method := some ("id_token") }⟩, [tk]⟩
             else
               ⟨⟨st, { synced := some false, error := some (errorFrom detail st),
                       backendUrl := some (backendBaseUrl env ++ ("/api/v1/auth/me")),
                       method := some ("id_token_failed") }⟩, [tk]⟩)
        | none =>
          match truthyOpt u.sub with
          | some sub =>
            -- lines 105-185
            let tok : String := String.mk (minimalTokenChars sub u now)
            (match backend tok with
             | .netError msg =>
               ⟨⟨500, { synced := some false, error := some ("Failed to connect to backend"),
                        detail := some msg,
                        hint := some (("Make sure the backend is running on ") ++ hintBaseUrl env) }⟩,
                [tok]⟩
             | .reply st detail raw =>
               if responseOk st then
                 ⟨⟨200, { synced := some true, user := some (.backendData raw),
                          method := some ("session_data") }⟩, [tok]⟩
               else
                 ⟨⟨st, { synced := some false, error := some (errorFrom detail st),
                         backendUrl := some (backendBaseUrl env ++ ("/api/v1/auth/me")),
                         method := some ("session_data_failed"),
                         hint := some ("User will be automatically synced on first backend API call (e.g., uploading a resume). Check backend logs for JWT decode error details."),
                         debug := true }⟩, [tok]⟩)
          | none =>
            -- lines 188-193 (no fetch; NextResponse.json default status 200)
            ⟨⟨200, { synced := some false,
                     message := some ("Tokens not available in session (known SDK v4 issue). User will be synced on first backend API call."),
                     hint := some ("The user will be automatically created when they make their first API call to the backend (e.g., uploading a resume)."),
                     user := some (.sessionData u) }⟩, []⟩

/-! ### The credential route (`GET /api/auth-token`, `src/unnamed/part_004`) -/

/-- The `debug` object of the no-token reply (lines 68-73).  The
`sessionKeys` entry (`Object.keys(session)`, runtime reflection over the
session object) is not representable in the typed session model and is
omitted. -/
structure AuthDebug where
  hasSession : Bool
  hasUser : Bool
  audience : String
deriving DecidableEq

/-- Body of a `GET /api/auth-token` response.  `accessToken = some none`
models an explicit JSON `null`; the outer `none` means the field is absent
(the 401/500 error bodies). -/
structure TokenBody where
  accessToken : Option (Option String) := none
  error : Option String := none
  hint : Option String := none
  debug : Option AuthDebug := none
deriving DecidableEq

structure TokenResponse where
  status : Nat
  body : TokenBody
deriving DecidableEq

/-- Shallow embedding of `GET` in the auth-token route.  The route reads the
ID token (lines 38-47) only to log about it — it never returns it; the
no-token branch answers 200 with an explicit `null` token (lines 61-76). -/
def GETauthToken (env : Env) (session : Option Session) : TokenResponse :=
  match session with
  | none => ⟨401, { error := some ("Not authenticated") }⟩
  | some s =>
    match sessionAccessToken s with
    | some tk => ⟨200, { accessToken := some (some tk) }⟩
    | none =>
      ⟨200, { accessToken := some none,
              error := some ("Access token not available"),
              hint := some ("Make sure AUTH0_AUDIENCE is configured in lib/auth0.ts and .env.local. User will be synced on first backend API call."),
              debug := some ⟨true, s.user.isSome,
                jsOrStr (firstTruthy [env.AUTH0_AUDIENCE, env.NEXT_PUBLIC_AUTH0_AUDIENCE]) ("NOT SET")⟩ }⟩

/-! ### The client-side sync effect (`src/components/UserSync.tsx`) -/

/-- The two `useRef` guard flags, which persist across re-renders within one
page lifecycle. -/
structure UserSyncState where
  hasSyncedRef : Bool
  hasAttemptedRef : Bool
deriving DecidableEq

/-- Outcome of the `fetch("/api/sync-user")` call as the component observes
it: a thrown network error, or a response with its `ok` flag and the
`synced` flag of its JSON body. -/
inductive FetchOutcome where
  | netError
  | resp (ok : Bool) (synced : Bool)
deriving DecidableEq

/-- One run of the mount effect: the `useUser()` values at that render and
the fetch outcome that call would observe. -/
structure EffectInput where
  isLoading : Bool
  userPresent : Bool
  outcome : FetchOutcome
deriving DecidableEq

/-- One execution of `syncUser` (lines 25-62 of `UserSync.tsx`): returns the
updated ref state and whether a network call was issued.  `hasAttemptedRef`
is set before the fetch; a `!response.ok` throw and a network error are both
swallowed by the catch; `hasSyncedRef` is set only when the body reports
`synced`. -/
def runSyncEffect (st : UserSyncState) (inp : EffectInput) : UserSyncState × Bool :=
  if inp.isLoading || !inp.userPresent then (st, false)
  else if st.hasSyncedRef || st.hasAttemptedRef then (st, false)
  else
    match inp.outcome with
    | .netError => (⟨st.hasSyncedRef, true⟩, true)
    | .resp ok synced =>
      if ok && synced then (⟨true, true⟩, true)
      else (⟨st.hasSyncedRef, true⟩, true)

/-- Repeated runs of the effect within one page lifecycle, counting network
calls. -/
def runSyncEffects (st : UserSyncState) : List EffectInput → UserSyncState × Nat
  | [] => (st, 0)
  | i :: rest =>
    let r := runSyncEffect st i
    let r2 := runSyncEffects r.1 rest
    (r2.1, (if r.2 then 1 else 0) + r2.2)

/-- Both refs start `false` (lines 21-22). -/
def initialUserSyncState : UserSyncState := ⟨false, false⟩

/-! ### Middleware and the protected page -/

/-- A JavaScript error as the handlers inspect it: `name`, `message`, `code`. -/
structure JsError where
  name : String
  message : String
  code : String
deriving DecidableEq

/-- What `auth0.middleware(request)` did: succeeded, or threw. -/
inductive MiddlewareInput where
  | ok
  | err (e : JsError)
deriving DecidableEq

inductive MiddlewareOutcome where
  | passThrough
  | nextWithCookiesDeleted (cookies : List String)
  | rethrow (e : JsError)
deriving DecidableEq

/-- JS `message.includes('JWE')`: the substring occurs somewhere. -/
def includesJWE (m : String) : Bool :=
  decide (2 ≤ (m.splitOn ("JWE")).length)

/-- Shallow embedding of `middleware` (`src/unnamed/part_003`, lines 5-22). -/
def middleware (res : MiddlewareInput) : MiddlewareOutcome :=
  match res with
  | .ok => .passThrough
  | .err e =>
    if e.name == "JWEInvalid" || includesJWE e.message then
      .nextWithCookiesDeleted [("appSession"), ("appSession.0"), ("appSession.1")]
    else .rethrow e

/-- What `auth0.getSession()` did on the dashboard page: returned, or threw. -/
inductive GetSessionResult where
  | ok (s : Option Session)
  | err (e : JsError)
deriving DecidableEq

inductive PageOutcome where
  | redirectHome
  | renderDashboard
  | throwError (e : JsError)
deriving DecidableEq

/-- Shallow embedding of `DashboardPage` (`src/app/dashboard/page.tsx`).
A `JWEInvalid`/`ERR_JWE_INVALID` throw is swallowed, leaving `user` null,
which triggers `redirect("/")`; the render-time sync fetch (lines 29-44) is
wrapped in its own try/catch and cannot change the outcome, so the rendered
page ignores `syncFetch`. -/
def DashboardPage (gs : GetSessionResult) (syncFetch : FetchOutcome) : PageOutcome :=
  match gs with
  | .err e =>
    if e.name == "JWEInvalid" || e.code == "ERR_JWE_INVALID" then .redirectHome
    else .throwError e
  | .ok none => .redirectHome
  | .ok (some s) =>
    match s.user with
    | none => .redirectHome
    | some _ =>
      match syncFetch with
      | _ => .renderDashboard

/-! ### Concrete fixtures for witnesses and counterexamples -/

def envEx : Env := ⟨none, none, none, none⟩

def userEx : SessionUser := ⟨some ("auth0|42"), some ("a@b.com"), some ("Ada"), none, none⟩

def userNoSub : SessionUser := ⟨none, some ("a@b.com"), none, none, none⟩

/-- Session holding all three credential tiers. -/
def sessAll : Session := ⟨some userEx, some ("AT"), none, none, some ("IT"), none⟩

/-- Session holding only the identity token (and profile claims). -/
def sessIdOnly : Session := ⟨some userEx, none, none, none, some ("IT"), none⟩

/-- Session holding only profile claims with a subject. -/
def sessSubOnly : Session := ⟨some userEx, none, none, none, none, none⟩

/-- Session with no tokens and no subject. -/
def sessBare : Session := ⟨some userNoSub, none, none, none, none, none⟩

def backendOkFn : String → BackendReply := fun _ => .reply 200 none ("user-record-json")

def backend401Fn : String → BackendReply := fun _ => .reply 401 (some ("Invalid token")) ("")

def backendDownFn : String → BackendReply := fun _ => .netError ("ECONNREFUSED")

/-! ### Helper lemmas about the sync route -/

/-- The bearer tokens the sync route presents, as a function of the session
alone: the first truthy access-token location, else the first truthy
ID-token location, else the synthesized token when the subject is truthy,
else nothing. -/
theorem GETsyncUser_calls (env : Env) (backend : String → BackendReply)
    (s : Session) (u : SessionUser) (now : Nat) (hu : s.user = some u) :
    (GETsyncUser env backend (some s) now).calls =
      (match sessionAccessToken s with
       | some tk => [tk]
       | none =>
         match sessionIdToken s with
         | some tk => [tk]
         | none =>
           match truthyOpt u.sub with
           | some sub => [String.mk (minimalTokenChars sub u now)]
           | none => []) := by
  simp only [GETsyncUser, hu]
  cases sessionAccessToken s with
  | some tk =>
    dsimp only
    cases backend tk with
    | netError msg => rfl
    | reply st detail raw =>
      by_cases hok : responseOk st <;> simp [hok]
  | none =>
    dsimp only
    cases sessionIdToken s with
    | some tk =>
      dsimp only
      cases backend tk with
      | netError msg => rfl
      | reply st detail raw =>
        by_cases hok : responseOk st <;> simp [hok]
    | none =>
      dsimp only
      cases truthyOpt u.sub with
      | some sub =>
        dsimp only
        cases backend (String.mk (minimalTokenChars sub u now)) with
        | netError msg => rfl
        | reply st detail raw =>
          by_cases hok : responseOk st <;> simp [hok]
      | none => rfl

theorem truthyOpt_some {o : Option String} {sub : String}
    (h : truthyOpt o = some sub) : o = some sub ∧ sub ≠ "" := by
  unfold truthyOpt at h
  by_cases ht : truthy o
  · rw [if_pos ht] at h
    subst h
    refine ⟨rfl, ?_⟩
    unfold truthy at ht
    simpa using ht
  · rw [if_neg ht] at h
    exact absurd h (by simp)

/-! ### Claim theorems -/

/-- C1: credential selection follows the fixed preference order: the sync
route presents the API access credential when any of its session locations
holds one; otherwise the identity (ID) credential when present; otherwise,
if the session's principal subject is truthy, the synthesized credential —
so whenever the access token is available (in particular when all three
tiers are), it is the one presented. -/
theorem sync_credential_preference (env : Env) (backend : String → BackendReply)
    (s : Session) (u : SessionUser) (now : Nat) (hu : s.user = some u) :
    (∀ tk, sessionAccessToken s = some tk →
      (GETsyncUser env backend (some s) now).calls = [tk]) ∧
    (∀ tk, sessionAccessToken s = none → sessionIdToken s = some tk →
      (GETsyncUser env backend (some s) now).calls = [tk]) ∧
    (∀ sub, sessionAccessToken s = none → sessionIdToken s = none →
      truthyOpt u.sub = some sub →
      (GETsyncUser env backend (some s) now).calls
        = [String.mk (minimalTokenChars sub u now)]) := by
  refine ⟨?_, ?_, ?_⟩
  · intro tk hA
    simp [GETsyncUser_calls env backend s u now hu, hA]
  · intro tk hA hI
    simp [GETsyncUser_calls env backend s u now hu, hA, hI]
  · intro sub hA hI hS
    simp [GETsyncUser_calls env backend s u now hu, hA, hI, hS]

/-- Witness for C1: the session holding all three credential tiers presents
the API access token. -/
theorem sync_credential_preference_witness :
    sessAll.user = some userEx ∧ sessionAccessToken sessAll = some ("AT") ∧
    (GETsyncUser envEx backendOkFn (some sessAll) 0).calls = [("AT")] :=
  ⟨rfl, by decide,
    (sync_credential_preference envEx backendOkFn sessAll userEx 0 rfl).1 ("AT") (by decide)⟩

/-- C2 counterexample: with both an access token and an ID token in the
session and a resource server that answers 401 to everything, the route
makes its single call with the access token, reports failure, and never
tries the identity credential — authentication failure does not trigger the
next tier, contradicting the claim. -/
theorem sync_cascade_on_auth_failure_counterexample :
    sessionAccessToken sessAll = some ("AT") ∧
    sessionIdToken sessAll = some ("IT") ∧
    backend401Fn ("AT") = BackendReply.reply 401 (some ("Invalid token")) ("") ∧
    (GETsyncUser envEx backend401Fn (some sessAll) 0).calls = [("AT")] ∧
    ("IT") ∉ (GETsyncUser envEx backend401Fn (some sessAll) 0).calls ∧
    (GETsyncUser envEx backend401Fn (some sessAll) 0).response.body.synced = some false ∧
    (GETsyncUser envEx backend401Fn (some sessAll) 0).response.status = 401 := by
  decide

/-- C2 (amended): for every sync attempt, at most one network call is made,
and it presents the first credential in preference order that is present in
the session — regardless of the resource server's response.  Cascading to
the next tier happens only when a higher-preference credential is absent,
never on an authentication-failure (or any other) response. -/
theorem sync_single_call_first_available_tier (env : Env)
    (backend : String → BackendReply) (s : Session) (u : SessionUser) (now : Nat)
    (hu : s.user = some u) :
    (GETsyncUser env backend (some s) now).calls.length ≤ 1 ∧
    (∀ tk, sessionAccessToken s = some tk →
      (GETsyncUser env backend (some s) now).calls = [tk]) ∧
    (∀ tk, sessionAccessToken s = none → sessionIdToken s = some tk →
      (GETsyncUser env backend (some s) now).calls = [tk]) := by
  rw [GETsyncUser_calls env backend s u now hu]
  refine ⟨?_, ?_, ?_⟩
  · cases sessionAccessToken s with
    | some tk => simp
    | none =>
      dsimp only
      cases sessionIdToken s with
      | some tk => simp
      | none =>
        dsimp only
        cases truthyOpt u.sub <;> simp
  · intro tk hA
    simp [hA]
  · intro tk hA hI
    simp [hA, hI]

/-- Witness for C2 (amended): with an access token present and a 401-ing
resource server, exactly one call is made, and it presents the access
token. -/
theorem sync_single_call_first_available_tier_witness :
    sessAll.user = some userEx ∧
    (GETsyncUser envEx backend401Fn (some sessAll) 0).calls.length ≤ 1 ∧
    (GETsyncUser envEx backend401Fn (some sessAll) 0).calls = [("AT")] :=
  ⟨rfl,
    (sync_single_call_first_available_tier envEx backend401Fn sessAll userEx 0 rfl).1,
    (sync_single_call_first_available_tier envEx backend401Fn sessAll userEx 0 rfl).2.1
      ("AT") (by decide)⟩

/-- C4 counterexample: a successful sync through the access-token tier
returns 200 with `synced: true` but carries no `method` field at all, and a
successful identity-tier sync tags `method: "id_token"` — neither matches
the claimed tag set `api_credential | identity_credential | session_data`. -/
theorem sync_success_method_counterexample :
    (GETsyncUser envEx backendOkFn (some sessAll) 0).response.status = 200 ∧
    (GETsyncUser envEx backendOkFn (some sessAll) 0).response.body.synced = some true ∧
    (GETsyncUser envEx backendOkFn (some sessAll) 0).response.body.method = none ∧
    (GETsyncUser envEx backendOkFn (some sessIdOnly) 0).response.body.synced = some true ∧
    (GETsyncUser envEx backendOkFn (some sessIdOnly) 0).response.body.method
      = some ("id_token") := by
  decide

/-- C4 (amended): on every successful sync the route returns 200 with a body
of shape `synced: true, user: <UserRecord>`, where the method tag depends on
the tier that succeeded: the access-token tier carries no `method` field,
the identity tier carries `method: "id_token"`, and the synthesized tier
carries `method: "session_data"`. -/
theorem sync_success_shape (env : Env) (backend : String → BackendReply)
    (s : Session) (u : SessionUser) (now : Nat) (hu : s.user = some u)
    (hsync : (GETsyncUser env backend (some s) now).response.body.synced = some true) :
    (GETsyncUser env backend (some s) now).response.status = 200 ∧
    (∃ raw, (GETsyncUser env backend (some s) now).response.body.user
        = some (UserField.backendData raw)) ∧
    ((GETsyncUser env backend (some s) now).response.body.method = none ∨
     (GETsyncUser env backend (some s) now).response.body.method = some ("id_token") ∨
     (GETsyncUser env backend (some s) now).response.body.method = some ("session_data")) ∧
    (∀ tk, sessionAccessToken s = some tk →
      (GETsyncUser env backend (some s) now).response.body.method = none) ∧
    (∀ tk, sessionAccessToken s = none → sessionIdToken s = some tk →
      (GETsyncUser env backend (some s) now).response.body.method = some ("id_token")) ∧
    (∀ sub, sessionAccessToken s = none → sessionIdToken s = none →
      truthyOpt u.sub = some sub →
      (GETsyncUser env backend (some s) now).response.body.method
        = some ("session_data")) := by
  revert hsync
  simp only [GETsyncUser, hu]
  cases hA : sessionAccessToken s with
  | some tk =>
    dsimp only
    cases backend tk with
    | netError msg => intro hsync; simp at hsync
    | reply st detail raw =>
      by_cases hok : responseOk st
      · simp [hok, hA]
      · intro hsync; simp [hok] at hsync
  | none =>
    dsimp only
    cases hI : sessionIdToken s with
    | some tk =>
      dsimp only
      cases backend tk with
      | netError msg => intro hsync; simp at hsync
      | reply st detail raw =>
        by_cases hok : responseOk st
        · simp [hok, hA, hI]
        · intro hsync; simp [hok] at hsync
    | none =>
      dsimp only
      cases hS : truthyOpt u.sub with
      | some sub =>
        dsimp only
        cases backend (String.mk (minimalTokenChars sub u now)) with
        | netError msg => intro hsync; simp at hsync
        | reply st detail raw =>
          by_cases hok : responseOk st
          · simp [hok, hA, hI]
          · intro hsync; simp [hok] at hsync
      | none => intro hsync; simp at hsync

/-- Witness for C4 (amended): a successful identity-tier sync is a 200 with
`method: "id_token"`. -/
theorem sync_success_shape_witness :
    sessIdOnly.user = some userEx ∧
    (GETsyncUser envEx backendOkFn (some sessIdOnly) 0).response.body.synced = some true ∧
    (GETsyncUser envEx backendOkFn (some sessIdOnly) 0).response.status = 200 ∧
    (GETsyncUser envEx backendOkFn (some sessIdOnly) 0).response.body.method
      = some ("id_token") :=
  ⟨rfl, by decide,
    (sync_success_shape envEx backendOkFn sessIdOnly userEx 0 rfl (by decide)).1,
    (sync_success_shape envEx backendOkFn sessIdOnly userEx 0 rfl (by decide)).2.2.2.2.1
      ("IT") (by decide) (by decide)⟩

/-- C5 counterexample: when the resource server is unreachable while the
access-token tier is being presented, the failure reply carries no hint at
all (the fetch error propagates to the outer catch of lines 232-242, whose
body has only `error` and `detail`), contradicting the claim that every
transport-error reply hints that the backend may not be running. -/
theorem transport_error_hint_counterexample :
    sessionAccessToken sessAll = some ("AT") ∧
    backendDownFn ("AT") = BackendReply.netError ("ECONNREFUSED") ∧
    (GETsyncUser envEx backendDownFn (some sessAll) 0).response.status = 500 ∧
    (GETsyncUser envEx backendDownFn (some sessAll) 0).response.body.hint = none ∧
    (GETsyncUser envEx backendDownFn (some sessAll) 0).response.body.error
      = some ("Failed to sync user") := by
  decide

/-- C5 (amended): on a transport error the route returns 500; only the
identity-credential and synthesized-credential tiers attach the hint
`"Make sure the backend is running on " ++ url`, where `url` is
`NEXT_PUBLIC_BACKEND_URL` when truthy and `"http://localhost:8000"`
otherwise (`BACKEND_URL` is not consulted for the hint); the access-token
tier's transport-error reply carries no hint. -/
theorem transport_error_hint_by_tier (env : Env) (backend : String → BackendReply)
    (s : Session) (u : SessionUser) (now : Nat) (msg : String)
    (hu : s.user = some u)
    (hdown : ∀ tk, backend tk = BackendReply.netError msg) :
    (∀ tk, sessionAccessToken s = some tk →
      (GETsyncUser env backend (some s) now).response.status = 500 ∧
      (GETsyncUser env backend (some s) now).response.body.hint = none ∧
      (GETsyncUser env backend (some s) now).response.body.error
        = some ("Failed to sync user") ∧
      (GETsyncUser env backend (some s) now).response.body.detail = some msg) ∧
    (∀ tk, sessionAccessToken s = none → sessionIdToken s = some tk →
      (GETsyncUser env backend (some s) now).response.status = 500 ∧
      (GETsyncUser env backend (some s) now).response.body.hint
        = some (("Make sure the backend is running on ") ++ hintBaseUrl env)) ∧
    (∀ sub, sessionAccessToken s = none → sessionIdToken s = none →
      truthyOpt u.sub = some sub →
      (GETsyncUser env backend (some s) now).response.status = 500 ∧
      (GETsyncUser env backend (some s) now).response.body.hint
        = some (("Make sure the backend is running on ") ++ hintBaseUrl env)) := by
  refine ⟨?_, ?_, ?_⟩
  · intro tk hA
    simp only [GETsyncUser, hu, hA]
    rw [hdown tk]
    exact ⟨rfl, rfl, rfl, rfl⟩
  · intro tk hA hI
    simp only [GETsyncUser, hu, hA, hI]
    rw [hdown tk]
    exact ⟨rfl, rfl⟩
  · intro sub hA hI hS
    simp only [GETsyncUser, hu, hA, hI, hS]
    rw [hdown (String.mk (minimalTokenChars sub u now))]
    exact ⟨rfl, rfl⟩

/-- Witness for C5 (amended): identity tier, backend down: the 500 reply
hints at the default backend URL. -/
theorem transport_error_hint_by_tier_witness :
    sessIdOnly.user = some userEx ∧
    (∀ tk, backendDownFn tk = BackendReply.netError ("ECONNREFUSED")) ∧
    ((GETsyncUser envEx backendDownFn (some sessIdOnly) 0).response.status = 500 ∧
     (GETsyncUser envEx backendDownFn (some sessIdOnly) 0).response.body.hint
       = some (("Make sure the backend is running on ") ++ hintBaseUrl envEx)) :=
  ⟨rfl, fun _ => rfl,
    (transport_error_hint_by_tier envEx backendDownFn sessIdOnly userEx 0
        ("ECONNREFUSED") rfl (fun _ => rfl)).2.1 ("IT") (by decide) (by decide)⟩

/-- C10: with no access token, no ID token and a falsy subject, the sync
route makes no network call and answers 200 with `synced: false`, a
`message` field, a `hint`, and the raw session user object — fields beyond
the documented deferred/failed shape. -/
theorem sync_deferred_no_tokens (env : Env) (backend : String → BackendReply)
    (s : Session) (u : SessionUser) (now : Nat) (hu : s.user = some u)
    (hA : sessionAccessToken s = none) (hI : sessionIdToken s = none)
    (hS : truthyOpt u.sub = none) :
    (GETsyncUser env backend (some s) now).calls = [] ∧
    (GETsyncUser env backend (some s) now).response.status = 200 ∧
    (GETsyncUser env backend (some s) now).response.body.synced = some false ∧
    (GETsyncUser env backend (some s) now).response.body.message
      = some ("Tokens not available in session (known SDK v4 issue). User will be synced on first backend API call.") ∧
    (GETsyncUser env backend (some s) now).response.body.hint
      = some ("The user will be automatically created when they make their first API call to the backend (e.g., uploading a resume).") ∧
    (GETsyncUser env backend (some s) now).response.body.user
      = some (UserField.sessionData u) := by
  simp [GETsyncUser, hu, hA, hI, hS]

/-- Witness for C10 at the bare session. -/
theorem sync_deferred_no_tokens_witness :
    sessBare.user = some userNoSub ∧
    (GETsyncUser envEx backendOkFn (some sessBare) 0).calls = [] ∧
    (GETsyncUser envEx backendOkFn (some sessBare) 0).response.status = 200 ∧
    (GETsyncUser envEx backendOkFn (some sessBare) 0).response.body.user
      = some (UserField.sessionData userNoSub) :=
  ⟨rfl,
    (sync_deferred_no_tokens envEx backendOkFn sessBare userNoSub 0 rfl
        (by decide) (by decide) (by decide)).1,
    (sync_deferred_no_tokens envEx backendOkFn sessBare userNoSub 0 rfl
        (by decide) (by decide) (by decide)).2.1,
    (sync_deferred_no_tokens envEx backendOkFn sessBare userNoSub 0 rfl
        (by decide) (by decide) (by decide)).2.2.2.2.2⟩

/-- C7: for every request to the auth-token route with a valid session, the
response status is 200 and the body carries the `accessToken` field (a
string or an explicit null) — 200 even when no access credential is in the
session. -/
theorem auth_token_always_200 (env : Env) (s : Session) :
    (GETauthToken env (some s)).status = 200 ∧
    ((GETauthToken env (some s)).body.accessToken).isSome = true := by
  cases hA : sessionAccessToken s <;> simp [GETauthToken, hA]

/-- C9: when the session holds no access token — even though an identity
(ID) token is present — the auth-token route answers 200 with an explicit
`accessToken: null`; it never falls back to returning the identity or a
synthesized credential. -/
theorem auth_token_no_identity_fallback (env : Env) (s : Session)
    (hA : sessionAccessToken s = none) :
    (GETauthToken env (some s)).status = 200 ∧
    (GETauthToken env (some s)).body.accessToken = some none := by
  simp only [GETauthToken]
  rw [hA]
  exact ⟨rfl, rfl⟩

/-- Witness for C9: a session carrying an ID token but no access token gets
`accessToken: null`. -/
theorem auth_token_no_identity_fallback_witness :
    sessionAccessToken sessIdOnly = none ∧ sessionIdToken sessIdOnly = some ("IT") ∧
    ((GETauthToken envEx (some sessIdOnly)).status = 200 ∧
     (GETauthToken envEx (some sessIdOnly)).body.accessToken = some none) :=
  ⟨by decide, by decide,
    auth_token_no_identity_fallback envEx sessIdOnly (by decide)⟩

/-! ### Client-side at-most-once sync (C6) -/

theorem runSyncEffect_attempted (st : UserSyncState) (i : EffectInput)
    (h : st.hasAttemptedRef = true) : runSyncEffect st i = (st, false) := by
  unfold runSyncEffect
  rw [h]
  simp

theorem runSyncEffect_call_sets_attempted (st : UserSyncState) (i : EffectInput) :
    (runSyncEffect st i).2 = true → (runSyncEffect st i).1.hasAttemptedRef = true := by
  unfold runSyncEffect
  split
  · simp
  · split
    · simp
    · split
      · simp
      · split <;> simp

theorem runSyncEffects_attempted (st : UserSyncState) (inputs : List EffectInput)
    (h : st.hasAttemptedRef = true) : (runSyncEffects st inputs).2 = 0 := by
  induction inputs generalizing st with
  | nil => rfl
  | cons i rest ih =>
    simp only [runSyncEffects, runSyncEffect_attempted st i h]
    simpa using ih st h

theorem runSyncEffects_le_one (st : UserSyncState) (inputs : List EffectInput) :
    (runSyncEffects st inputs).2 ≤ 1 := by
  induction inputs generalizing st with
  | nil => simp [runSyncEffects]
  | cons i rest ih =>
    simp only [runSyncEffects]
    by_cases hm : (runSyncEffect st i).2 = true
    · have hat := runSyncEffect_call_sets_attempted st i hm
      have h0 := runSyncEffects_attempted (runSyncEffect st i).1 rest hat
      simp [hm, h0]
    · have hm' : (runSyncEffect st i).2 = false := by simpa using hm
      simpa [hm'] using ih (runSyncEffect st i).1

/-- C6: within one page lifecycle, running the `UserSync` mount effect any
number of times with an authenticated, non-loading user issues at most one
network call to `/api/sync-user`; and once an attempt has been recorded
(successful or failed), any further runs in the same lifecycle issue zero
calls — a failed attempt is never retried. -/
theorem at_most_one_sync_call (inputs : List EffectInput)
    (_h : ∀ i ∈ inputs, i.isLoading = false ∧ i.userPresent = true) :
    (runSyncEffects initialUserSyncState inputs).2 ≤ 1 ∧
    ((runSyncEffects initialUserSyncState inputs).1.hasAttemptedRef = true →
      ∀ more : List EffectInput,
        (runSyncEffects (runSyncEffects initialUserSyncState inputs).1 more).2 = 0) :=
  ⟨runSyncEffects_le_one initialUserSyncState inputs,
    fun hat more => runSyncEffects_attempted _ more hat⟩

/-- Two effect runs with an authenticated user; the first attempt fails, the
second run issues no further call. -/
def effInputsEx : List EffectInput :=
  [⟨false, true, .resp false false⟩, ⟨false, true, .resp true true⟩]

/-- Witness for C6: two mount-effect runs, first attempt failing, make
exactly one call in total, and subsequent runs make zero. -/
theorem at_most_one_sync_call_witness :
    (∀ i ∈ effInputsEx, i.isLoading = false ∧ i.userPresent = true) ∧
    (runSyncEffects initialUserSyncState effInputsEx).2 ≤ 1 ∧
    (runSyncEffects (runSyncEffects initialUserSyncState effInputsEx).1 effInputsEx).2
      = 0 :=
  ⟨by decide,
    (at_most_one_sync_call effInputsEx (by decide)).1,
    (at_most_one_sync_call effInputsEx (by decide)).2 (by decide) effInputsEx⟩

/-- C8: a JWE-invalid session error (error name `JWEInvalid`, as thrown by
the session-cookie decryption) makes the middleware delete the three
session cookies and continue the request unauthenticated instead of
rethrowing, and makes the protected dashboard page redirect to the landing
page instead of surfacing the error — never a hard failure. -/
theorem jwe_invalid_handled (e : JsError) (syncFetch : FetchOutcome)
    (hname : e.name = "JWEInvalid") :
    middleware (.err e)
      = .nextWithCookiesDeleted [("appSession"), ("appSession.0"), ("appSession.1")] ∧
    (∀ e', middleware (.err e) ≠ .rethrow e') ∧
    DashboardPage (.err e) syncFetch = .redirectHome ∧
    (∀ e', DashboardPage (.err e) syncFetch ≠ .throwError e') := by
  have h1 : middleware (.err e)
      = .nextWithCookiesDeleted [("appSession"), ("appSession.0"), ("appSession.1")] := by
    simp [middleware, hname]
  have h2 : DashboardPage (.err e) syncFetch = .redirectHome := by
    simp [DashboardPage, hname]
  refine ⟨h1, ?_, h2, ?_⟩
  · intro e'
    rw [h1]
    exact fun hc => by cases hc
  · intro e'
    rw [h2]
    exact fun hc => by cases hc

/-- Witness for C8 at the concrete error thrown by the cookie decryption
library. -/
theorem jwe_invalid_handled_witness :
    (JsError.mk ("JWEInvalid") ("Invalid JWE") ("ERR_JWE_INVALID")).name = "JWEInvalid" ∧
    middleware (.err (JsError.mk ("JWEInvalid") ("Invalid JWE") ("ERR_JWE_INVALID")))
      = .nextWithCookiesDeleted [("appSession"), ("appSession.0"), ("appSession.1")] ∧
    DashboardPage (.err (JsError.mk ("JWEInvalid") ("Invalid JWE") ("ERR_JWE_INVALID")))
      (.resp true true) = .redirectHome :=
  ⟨rfl,
    (jwe_invalid_handled (JsError.mk ("JWEInvalid") ("Invalid JWE") ("ERR_JWE_INVALID"))
        (.resp true true) rfl).1,
    (jwe_invalid_handled (JsError.mk ("JWEInvalid") ("Invalid JWE") ("ERR_JWE_INVALID"))
        (.resp true true) rfl).2.2.1⟩

/-! ### Structure of the synthesized credential (C3) -/

theorem b64seg_eq (s : List Char) : b64seg s = b64urlEncode (utf8Bytes s) := by
  unfold b64seg
  apply List.filter_eq_self.mpr
  intro a ha
  simpa using b64urlEncode_no_eq (utf8Bytes s) (utf8Bytes_lt s) a ha

theorem b64seg_no_dot (s : List Char) : '.' ∉ b64seg s := by
  rw [b64seg_eq]
  exact b64urlEncode_no_dot _ (utf8Bytes_lt s)

theorem b64seg_decode (s : List Char) : b64urlDecode (b64seg s) = utf8Bytes s := by
  rw [b64seg_eq]
  exact b64url_roundtrip _ (utf8Bytes_lt s)

theorem splitOnDot_minimalToken (sub : String) (u : SessionUser) (now : Nat) :
    splitOnDot (minimalTokenChars sub u now)
      = [b64seg headerJson, b64seg (payloadJson sub u now), []] := by
  unfold minimalTokenChars
  rw [splitOnDot_append _ _ (b64seg_no_dot headerJson),
    splitOnDot_append _ _ (b64seg_no_dot (payloadJson sub u now))]
  rfl

/-- C3: for every session user whose subject is truthy, the synthesized
credential consists of exactly three dot-separated segments — a header
segment that base64url-decodes to the fixed object declaring no signature
(`alg: "none"`), a payload segment, and an empty signature segment — and
the payload segment base64url-decodes to the UTF-8 rendering of the claims
mapping, which contains the non-empty `sub` together with `email`, `name`,
`picture`, `iat`, and `exp = iat + 3600`. -/
theorem synthesized_token_structure (u : SessionUser) (now : Nat) (sub : String)
    (hsub : truthyOpt u.sub = some sub) :
    splitOnDot (minimalTokenChars sub u now)
      = [b64seg headerJson, b64seg (payloadJson sub u now), []] ∧
    (splitOnDot (minimalTokenChars sub u now)).length = 3 ∧
    b64urlDecode (b64seg headerJson) = utf8Bytes headerJson ∧
    headerJson = renderObj [(("alg"), ClaimVal.cstr ("none")), (("typ"), ClaimVal.cstr ("JWT"))] ∧
    b64urlDecode (b64seg (payloadJson sub u now))
      = utf8Bytes (renderObj (payloadClaims sub u now)) ∧
    sub ≠ "" ∧
    (("sub"), ClaimVal.cstr sub) ∈ payloadClaims sub u now ∧
    (∃ v, (("email"), v) ∈ payloadClaims sub u now) ∧
    (∃ v, (("name"), v) ∈ payloadClaims sub u now) ∧
    (∃ v, (("picture"), v) ∈ payloadClaims sub u now) ∧
    (("iat"), ClaimVal.cnum now) ∈ payloadClaims sub u now ∧
    (("exp"), ClaimVal.cnum (now + 3600)) ∈ payloadClaims sub u now := by
  refine ⟨splitOnDot_minimalToken sub u now, ?_, b64seg_decode headerJson, rfl,
    b64seg_decode (payloadJson sub u now), (truthyOpt_some hsub).2, ?_, ?_, ?_, ?_, ?_, ?_⟩
  · rw [splitOnDot_minimalToken sub u now]
    rfl
  · simp [payloadClaims]
  · exact ⟨ClaimVal.cstr (jsOrStr u.email ("")), by simp [payloadClaims]⟩
  · refine ⟨?_, ?_⟩
    · exact match firstTruthy [u.name, u.nickname] with
            | some s => ClaimVal.cstr s
            | none => ClaimVal.cnull
    · simp [payloadClaims]
  · refine ⟨?_, ?_⟩
    · exact match truthyOpt u.picture with
            | some s => ClaimVal.cstr s
            | none => ClaimVal.cnull
    · simp [payloadClaims]
  · simp [payloadClaims]
  · simp [payloadClaims]

/-- Witness for C3 at a concrete user and clock. -/
theorem synthesized_token_structure_witness :
    truthyOpt userEx.sub = some ("auth0|42") ∧
    (splitOnDot (minimalTokenChars ("auth0|42") userEx 1000)).length = 3 ∧
    (("exp"), ClaimVal.cnum 4600) ∈ payloadClaims ("auth0|42") userEx 1000 :=
  ⟨by decide,
    (synthesized_token_structure userEx 1000 ("auth0|42") (by decide)).2.1,
    (synthesized_token_structure userEx 1000 ("auth0|42") (by decide)).2.2.2.2.2.2.2.2.2.2.2⟩
